import Mathlib

/-!
Shallow embedding of the core of `src/server.js` (repository
ikcerog/martechlander): the HTML-to-article extractor
(`extractCleanNewsData`, two textual versions of it appear in the file),
the file-backed response cache (`getCachedSummary` / `saveCachedSummary`),
the prompt assembly (`inputPrompt`) and the POST request handler for the
summarization endpoint.

JavaScript strings are modelled as `List Char` (`JStr`); clock times and
persisted timestamps as milliseconds since the epoch (`Int`), which is the
value `Date` comparisons and `toISOString` round-trips preserve.  The
persisted cache file is `Option CacheRecord`: `none` stands for a missing,
unreadable or unparsable file (all treated identically by the code).  The
DOM query layer (cheerio) is the external collaborator: a parsed document
is modelled as the list of `.news-card` elements it yields, each carrying
the text of its `h3 a` descendants, the `href` attribute of that link, and
the list of descendant elements of class `summary` (tag name plus text),
which is exactly the data the two extractor versions consume.
-/

/-- JavaScript string, modelled as a list of characters. -/
abbrev JStr := List Char

/-- Coerce a Lean string literal to the `JStr` model. -/
def jstr (s : String) : JStr := s.data

/-- The whitespace class used by JavaScript `String.prototype.trim`
(space, tab, newline, carriage return, vertical tab, form feed). -/
def isJsWs (c : Char) : Bool :=
  c = ' ' || c = '\t' || c = '\n' || c = '\r' || c = '\x0b' || c = '\x0c'

/-- JavaScript `s.trim()`: strip leading and trailing whitespace. -/
def jsTrim (s : JStr) : JStr :=
  ((s.dropWhile isJsWs).reverse.dropWhile isJsWs).reverse

/-- JavaScript `s.substring(0, n)`: the first `min n (length s)` characters. -/
def jsSubstringTo (s : JStr) (n : Nat) : JStr := s.take n

/-- JavaScript `Array.prototype.join` with a given separator string. -/
def jsJoin (sep : JStr) (parts : List JStr) : JStr :=
  (List.intersperse sep parts).flatten

/-- Does `sep` occur at the very start of `s`? -/
def listStartsWith : List Char → List Char → Bool
  | [], _ => true
  | _ :: _, [] => false
  | a :: as, b :: bs => a = b && listStartsWith as bs

/-- Split off the first occurrence of `sep` in `s`: the part before it and
the part after it, or `none` when `sep` does not occur. -/
def findSplit (sep : List Char) : List Char → Option (List Char × List Char)
  | [] => none
  | c :: cs =>
    if listStartsWith sep (c :: cs) then some ([], (c :: cs).drop sep.length)
    else
      match findSplit sep cs with
      | none => none
      | some (pre, post) => some (c :: pre, post)

/-- Fuelled worker for `jsSplit`. -/
def jsSplitGo (sep : List Char) : Nat → List Char → List (List Char)
  | 0, s => [s]
  | Nat.succ fuel, s =>
    match findSplit sep s with
    | none => [s]
    | some (pre, post) => pre :: jsSplitGo sep fuel post

/-- JavaScript `s.split(sep)` for a non-empty separator string: the pieces
of `s` between non-overlapping occurrences of `sep`, scanned left to
right.  (`fuel = s.length + 1` suffices since each found occurrence
consumes at least one character of a non-empty separator.) -/
def jsSplit (sep s : List Char) : List (List Char) :=
  jsSplitGo sep (s.length + 1) s

/-- Worker for `jsMapIdx`, carrying the running index. -/
def mapWithIndex (f : Nat → α → β) : Nat → List α → List β
  | _, [] => []
  | i, a :: as => f i a :: mapWithIndex f (i + 1) as

/-- JavaScript `array.map((x, index) => f index x)`. -/
def jsMapIdx (f : Nat → α → β) (l : List α) : List β := mapWithIndex f 0 l

/-- Decimal digits of a natural number, as the characters JavaScript
template interpolation renders it with. -/
def natChars (n : Nat) : JStr := Nat.toDigits 10 n

/-! ## Cache gate (`getCachedSummary` / `saveCachedSummary`)

`server.js` lines 172-207: `CACHE_TTL_HOURS = 4`; the cache file holds one
JSON object `{ summary, timestamp, ttl }`.  Both textual copies of the two
helpers in the file are identical, so one definition each suffices. -/

/-- Milliseconds in one hour: what `expirationTime.setHours(h + 4)` adds. -/
def msPerHour : Int := 3600000

/-- Constant `CACHE_TTL_HOURS = 4` of `server.js` line 173. -/
def CACHE_TTL_HOURS : Nat := 4

/-- The persisted cache record, `{ summary, timestamp, ttl }` as
constructed by `saveCachedSummary`.  `timestamp` is the instant the ISO
string stores, in epoch milliseconds. -/
structure CacheRecord where
  summary : JStr
  timestamp : Int
  ttl : Nat
  deriving DecidableEq, Repr

/-- The keys, in insertion order, of the JSON object that
`JSON.stringify(cache)` writes to the cache file in `saveCachedSummary`
(`server.js` lines 200-205).  The keys do not depend on the field values. -/
def cacheJSONKeys (_ : CacheRecord) : List JStr :=
  [jstr "summary", jstr "timestamp", jstr "ttl"]

/-- Modelled from the spec: the field names of the **CacheRecord** shape
the spec declares in its data model, `{ summary: string, timestamp:
ISO-8601 string, ttlHours: number }`, used to compare the declared shape
with the object the code persists. -/
def specCacheRecordKeys : List JStr :=
  [jstr "summary", jstr "timestamp", jstr "ttlHours"]

/-- Function `getCachedSummary` (`server.js` lines 181-196).  `file` is the parsed
content of the cache file, `none` when reading or parsing failed.  The
expiration instant is the stored timestamp plus `CACHE_TTL_HOURS` hours;
the record is returned only while `now` is strictly before it. -/
def getCachedSummary (now : Int) (file : Option CacheRecord) : Option CacheRecord :=
  match file with
  | none => none
  | some cache =>
    if now < cache.timestamp + (CACHE_TTL_HOURS : Int) * msPerHour then
      some cache
    else
      none

/-- Function `saveCachedSummary` (`server.js` lines 199-207): build the record
`{ summary, timestamp: now, ttl: CACHE_TTL_HOURS }`, write it to the cache
file (replacing whatever was there), and return it.  The first component
is the returned record, the second the cache file content after the
write. -/
def saveCachedSummary (summary : JStr) (now : Int) : CacheRecord × Option CacheRecord :=
  let cache : CacheRecord := { summary := summary, timestamp := now, ttl := CACHE_TTL_HOURS }
  (cache, some cache)

/-! ## Extractor (`extractCleanNewsData`, both textual versions)

The DOM layer is the external collaborator.  A parsed `htmlContent` is
modelled as the list of `.news-card` elements cheerio yields for it, in
document order; for each card the model records exactly the data the code
queries: `$(el).find("h3 a").text()`, the `href` attribute of that link,
and the descendant elements of class `summary` (tag name and text, in
document order).  `$(el).find("p.summary").text()` (first version, line
69) concatenates the texts of the `p`-tagged ones; `$(el).find(".summary")
.text()` (second version, line 219) concatenates the texts of all of
them. -/

/-- A descendant element with class `summary`: its tag name and the text
content cheerio reports for it. -/
structure SummaryElem where
  tag : JStr
  text : JStr
  deriving DecidableEq, Repr

/-- One `.news-card` element, as seen through the queries the code makes. -/
structure NewsCard where
  titleText : JStr
  href : Option JStr
  summaryElems : List SummaryElem
  deriving DecidableEq, Repr

/-- Model of `$(el).find(".summary").text()`: concatenated text of every
summary-class descendant. -/
def summaryTextAll (card : NewsCard) : JStr :=
  (card.summaryElems.map (fun e => e.text)).flatten

/-- Model of `$(el).find("p.summary").text()`: concatenated text of the
summary-class descendants whose tag is `p`. -/
def summaryTextP (card : NewsCard) : JStr :=
  ((card.summaryElems.filter (fun e => e.tag = jstr "p")).map (fun e => e.text)).flatten

/-- The object `{ title, summary, url }` pushed onto `articles`. -/
structure Article where
  title : JStr
  summary : JStr
  url : JStr
  deriving DecidableEq, Repr

/-- The `articles` array built by the second `extractCleanNewsData`
(`server.js` lines 215-224): per card, `title` is the trimmed link text,
`url` the `href` attribute defaulting to `"#"`, `summary` the trimmed text
of all `.summary` descendants; the card contributes an article only when
`title` and `summary` are both non-empty (JavaScript truthiness of the
strings). -/
def extractArticles (cards : List NewsCard) : List Article :=
  cards.filterMap fun el =>
    let title := jsTrim el.titleText
    let url := el.href.getD (jstr "#")
    let summary := jsTrim (summaryTextAll el)
    if title ≠ [] ∧ summary ≠ [] then some { title := title, summary := summary, url := url }
    else none

/-- The `articles` array built by the first `extractCleanNewsData`
(`server.js` lines 64-74); identical except the summary is the text of
`p.summary` descendants only. -/
def extractArticlesFirst (cards : List NewsCard) : List Article :=
  cards.filterMap fun el =>
    let title := jsTrim el.titleText
    let url := el.href.getD (jstr "#")
    let summary := jsTrim (summaryTextP el)
    if title ≠ [] ∧ summary ≠ [] then some { title := title, summary := summary, url := url }
    else none

/-- The template literal of the second `extractCleanNewsData` (lines
228-232).  The template spans source lines whose continuation lines are
indented by eight spaces, and the text `" // Truncate summary to save
tokens"` sits inside the backtick literal, so it is part of the produced
string, not a comment. -/
def formatArticle (index : Nat) (art : Article) : JStr :=
  jstr "[ARTICLE " ++ natChars (index + 1) ++ jstr "]\n        Title: "
    ++ art.title ++ jstr "\n        URL: " ++ art.url ++ jstr "\n        Summary: "
    ++ jsSubstringTo art.summary 300
    ++ jstr " // Truncate summary to save tokens\n        ---"

/-- The template literal of the first `extractCleanNewsData` (lines
77-81): same block without the stray comment text on the Summary line. -/
def formatArticleFirst (index : Nat) (art : Article) : JStr :=
  jstr "[ARTICLE " ++ natChars (index + 1) ++ jstr "]\n        Title: "
    ++ art.title ++ jstr "\n        URL: " ++ art.url ++ jstr "\n        Summary: "
    ++ jsSubstringTo art.summary 300
    ++ jstr "\n        ---"

/-- The second `extractCleanNewsData` (`server.js` lines 210-234), the one
in force at runtime: format each article and join the blocks with a
newline. -/
def extractCleanNewsData (cards : List NewsCard) : JStr :=
  jsJoin (jstr "\n") (jsMapIdx formatArticle (extractArticles cards))

/-- The first `extractCleanNewsData` (`server.js` lines 60-83). -/
def extractCleanNewsDataFirst (cards : List NewsCard) : JStr :=
  jsJoin (jstr "\n") (jsMapIdx formatArticleFirst (extractArticlesFirst cards))

/-! ## Prompt assembly and the POST handler (`server.js` lines 237-310) -/

/-- Model of `cleanNewsData.split("\n---").length`, the number interpolated into
the ANALYZE clause of the prompt (line 262). -/
def articleCountInPrompt (cleanNewsData : JStr) : Nat :=
  (jsSplit (jstr "\n---") cleanNewsData).length

/-- The prompt template up to the interpolated article count (the
template literal opens with a newline; every continuation line is
indented by eight spaces). -/
def promptPart1 : JStr := jstr
  "\n        You are a senior strategic analyst specializing in AdTech, Marketing, and Enterprise Technology.\n        Your task is to analyze the following CLEAN news articles. The data is pre-parsed; only focus on the content.\n\n        1. **ANALYZE** the "

/-- The prompt template between the article count and the interpolated
`cleanNewsData`.  The three `ðŸ...` sequences reproduce the
mojibake bytes present in the source file verbatim. -/
def promptPart2 : JStr := jstr
  " articles provided below.\n        2. **GENERATE** a strategic summary in Markdown format.\n        3. **CRITICAL**: For every key trend and takeaway, cite the story by title and include the URL in parentheses at the end of the citation.\n\n        Your output MUST be structured using Markdown headings and lists, focusing on actionable insights:\n\n        ## ðŸ“° Core Trends & Market Focus\n        * **[Trend 1/Topic]**: Describe theme. (Source: [Title](URL))\n        * **[Trend 2/Topic]**: Describe theme. (Source: [Title](URL))\n        * ... (List 3-5 major recurring themes)\n\n        ## ðŸ’¡ Strategic Takeaways for AdTech Leadership\n        * **For Branding & Campaigns**: Actionable step. (Source: [Title](URL))\n        * **For Ad Technology**: Actionable step. (Source: [Title](URL))\n        * **For Enterprise Tech/FinTech**: Actionable step. (Source: [Title](URL))\n\n        ## ðŸ“‰ Potential Risks & Blindspots\n        * [Risk 1]: A critical risk emerging from the news. (Source: [Title](URL))\n\n        ---\n        CLEAN News Data to Analyze:\n        ---\n        "

/-- The tail of the template after the interpolated `cleanNewsData`. -/
def promptPart3 : JStr := jstr "\n    "

/-- Template `inputPrompt` (`server.js` lines 258-285): the fixed template with the
split-count and the extracted text interpolated. -/
def inputPrompt (cleanNewsData : JStr) : JStr :=
  promptPart1 ++ natChars (articleCountInPrompt cleanNewsData)
    ++ promptPart2 ++ cleanNewsData ++ promptPart3

/-- Error message of the 400 response, `server.js` line 253. -/
def errNoContent : JStr := jstr "No clean news content found to summarize."

/-- Error message of the 500 response, `server.js` line 308. -/
def errGeneric : JStr := jstr "Failed to generate AI summary. Check server logs."

/-- The JSON body of a response from the endpoint: HTTP status plus the
fields the handler actually sets (absent fields are `none`). -/
structure Response where
  status : Nat
  summary : Option JStr
  timestamp : Option Int
  isCached : Option Bool
  error : Option JStr
  deriving DecidableEq, Repr

/-- The POST `/api/summarize-news` handler (`server.js` lines 237-310).
`file` is the cache file state when the request arrives, `cards` the
news-card elements cheerio finds in `req.body.htmlContent`, and
`generate` the external `ai.models.generateContent` call on the assembled
prompt (`Except.error` models a thrown error).  Returns the response and
the cache file state after the request: the file is written only on the
fresh-summary path, via `saveCachedSummary`. -/
def handleSummarize (now : Int) (file : Option CacheRecord) (cards : List NewsCard)
    (generate : JStr → Except JStr JStr) : Response × Option CacheRecord :=
  match getCachedSummary now file with
  | some cachedData =>
    ({ status := 200, summary := some cachedData.summary,
       timestamp := some cachedData.timestamp, isCached := some true, error := none }, file)
  | none =>
    let cleanNewsData := extractCleanNewsData cards
    if cleanNewsData = [] then
      ({ status := 400, summary := none, timestamp := none, isCached := none,
         error := some errNoContent }, file)
    else
      match generate (inputPrompt cleanNewsData) with
      | Except.ok summary =>
        let saved := saveCachedSummary summary now
        ({ status := 200, summary := some summary, timestamp := some saved.1.timestamp,
           isCached := some false, error := none }, saved.2)
      | Except.error _ =>
        ({ status := 500, summary := none, timestamp := none, isCached := none,
           error := some errGeneric }, file)

/-! ## Concrete demonstration inputs used by witnesses and counterexamples -/

/-- A news card with title text `a`, link `u1` and one `p.summary` child
with text `b`. -/
def demoCard1 : NewsCard :=
  { titleText := jstr "a", href := some (jstr "u1"),
    summaryElems := [{ tag := jstr "p", text := jstr "b" }] }

/-- A news card with title text `c`, no `href`, and one `p.summary` child
with text `d`. -/
def demoCard2 : NewsCard :=
  { titleText := jstr "c", href := none,
    summaryElems := [{ tag := jstr "p", text := jstr "d" }] }

/-- A news card whose title is empty, so it never qualifies. -/
def demoCardEmptyTitle : NewsCard :=
  { titleText := [], href := none,
    summaryElems := [{ tag := jstr "p", text := jstr "x" }] }

/-- A cache record as `saveCachedSummary` would store it at time 0. -/
def demoRecord : CacheRecord := { summary := jstr "s", timestamp := 0, ttl := 4 }

/-- The article a card contributes when it qualifies: trimmed title,
trimmed text of its summary-class descendants, href defaulted to `#`. -/
def articleOf (el : NewsCard) : Article :=
  { title := jsTrim el.titleText, summary := jsTrim (summaryTextAll el),
    url := el.href.getD (jstr "#") }

/-- The truthiness test of the push guard in the second extractor, as a
Boolean on cards. -/
def qualifiesCard (c : NewsCard) : Bool :=
  !(jsTrim c.titleText).isEmpty && !(jsTrim (summaryTextAll c)).isEmpty

/-! ## Helper lemmas -/

theorem mapWithIndex_map (f : Nat → β → γ) (g : α → β) (i : Nat) (l : List α) :
    mapWithIndex f i (l.map g) = mapWithIndex (fun j a => f j (g a)) i l := by
  induction l generalizing i with
  | nil => rfl
  | cons a as ih => simp [mapWithIndex, List.map_cons, ih]

theorem extractArticles_eq_map (cards : List NewsCard)
    (h : ∀ c ∈ cards, jsTrim c.titleText ≠ [] ∧ jsTrim (summaryTextAll c) ≠ []) :
    extractArticles cards = cards.map articleOf := by
  induction cards with
  | nil => rfl
  | cons c cs ih =>
    have hc := h c (List.mem_cons_self c cs)
    have hrest : ∀ x ∈ cs, jsTrim x.titleText ≠ [] ∧ jsTrim (summaryTextAll x) ≠ [] :=
      fun x hx => h x (List.mem_cons_of_mem c hx)
    simp only [extractArticles, List.filterMap_cons] at ih ⊢
    rw [if_pos hc]
    simp [articleOf, ih hrest]

theorem extractArticles_filter (cards : List NewsCard) :
    extractArticles cards = extractArticles (cards.filter qualifiesCard) := by
  induction cards with
  | nil => rfl
  | cons c cs ih =>
    by_cases hq : qualifiesCard c = true
    · rw [List.filter_cons_of_pos hq]
      simp only [extractArticles, List.filterMap_cons] at ih ⊢
      rw [ih]
    · rw [List.filter_cons_of_neg (by simpa using hq)]
      have hcond : ¬ (jsTrim c.titleText ≠ [] ∧ jsTrim (summaryTextAll c) ≠ []) := by
        intro hand
        apply hq
        simp [qualifiesCard, List.isEmpty_eq_false, hand.1, hand.2]
      simp only [extractArticles, List.filterMap_cons] at ih ⊢
      rw [if_neg hcond, ih]

/-! ## Claims -/

/-- Claim C1: for a stored cache record (every record `saveCachedSummary`
stores carries `ttl = CACHE_TTL_HOURS`), `getCachedSummary` returns the
record if and only if the current time is strictly before the stored
timestamp plus `ttl` hours; in particular a record whose timestamp lies
5 hours in the past, with `ttl = 4`, is reported absent. -/
theorem c1_getCached_hit_iff (c : CacheRecord) (now : Int)
    (h : c.ttl = CACHE_TTL_HOURS) :
    (getCachedSummary now (some c) = some c ↔
      now < c.timestamp + (c.ttl : Int) * msPerHour)
    ∧ (c.timestamp = now - 5 * msPerHour → getCachedSummary now (some c) = none) := by
  constructor
  · rw [h]
    unfold getCachedSummary
    by_cases hlt : now < c.timestamp + (CACHE_TTL_HOURS : Int) * msPerHour
    · simp [hlt]
    · simp [hlt]
  · intro ht
    have hn : ¬ (now < now - 5 * msPerHour + (CACHE_TTL_HOURS : Int) * msPerHour) := by
      simp only [CACHE_TTL_HOURS, msPerHour]
      omega
    simp [getCachedSummary, ht, hn]

/-- Witness for C1 at `now` = 5 hours, record stored at time 0 with
`ttl = 4`: the hypothesis holds and the record is reported absent. -/
theorem c1_getCached_hit_iff_witness :
    demoRecord.ttl = CACHE_TTL_HOURS
    ∧ ((getCachedSummary 18000000 (some demoRecord) = some demoRecord ↔
        (18000000 : Int) < demoRecord.timestamp + (demoRecord.ttl : Int) * msPerHour)
      ∧ (demoRecord.timestamp = 18000000 - 5 * msPerHour →
        getCachedSummary 18000000 (some demoRecord) = none)) :=
  ⟨by decide, c1_getCached_hit_iff demoRecord 18000000 (by decide)⟩

/-- Claim C2: when every card has a non-empty trimmed title and a
non-empty trimmed summary, the extractor emits exactly one block per card,
in document order (block `i` is the formatted article of card `i`), and
the summary embedded in each block is the 300-character truncation of the
trimmed summary text: it has length at most 300 and is an initial segment
of the trimmed summary. -/
theorem c2_extract_blocks (cards : List NewsCard)
    (h : ∀ c ∈ cards, jsTrim c.titleText ≠ [] ∧ jsTrim (summaryTextAll c) ≠ []) :
    (extractArticles cards).length = cards.length
    ∧ extractCleanNewsData cards =
        jsJoin (jstr "\n") (jsMapIdx (fun i el => formatArticle i (articleOf el)) cards)
    ∧ ∀ c ∈ cards,
        (jsSubstringTo (articleOf c).summary 300).length ≤ 300
        ∧ jsSubstringTo (articleOf c).summary 300 ++ (articleOf c).summary.drop 300
            = (articleOf c).summary := by
  have hm := extractArticles_eq_map cards h
  refine ⟨?_, ?_, ?_⟩
  · rw [hm, List.length_map]
  · unfold extractCleanNewsData jsMapIdx
    rw [hm, mapWithIndex_map]
  · intro c _
    exact ⟨by simp only [jsSubstringTo]; exact List.length_take_le 300 (articleOf c).summary,
      by simp [jsSubstringTo, List.take_append_drop]⟩

/-- Witness for C2 on two qualifying cards. -/
theorem c2_extract_blocks_witness :
    (∀ c ∈ [demoCard1, demoCard2],
      jsTrim c.titleText ≠ [] ∧ jsTrim (summaryTextAll c) ≠ [])
    ∧ ((extractArticles [demoCard1, demoCard2]).length = [demoCard1, demoCard2].length
      ∧ extractCleanNewsData [demoCard1, demoCard2] =
          jsJoin (jstr "\n")
            (jsMapIdx (fun i el => formatArticle i (articleOf el)) [demoCard1, demoCard2])
      ∧ ∀ c ∈ [demoCard1, demoCard2],
          (jsSubstringTo (articleOf c).summary 300).length ≤ 300
          ∧ jsSubstringTo (articleOf c).summary 300 ++ (articleOf c).summary.drop 300
              = (articleOf c).summary) :=
  ⟨by decide, c2_extract_blocks [demoCard1, demoCard2] (by decide)⟩

/-- Claim C3: while a valid cache record exists, the response to the POST
request is the cached summary and timestamp with `isCached = true`,
independent of the HTML payload and of the external generator; two
requests under the same valid record receive identical responses, and the
cache file is left unchanged. -/
theorem c3_cached_response_ignores_input (now : Int) (file : Option CacheRecord)
    (c : CacheRecord) (h : getCachedSummary now file = some c)
    (cards₁ cards₂ : List NewsCard) (gen₁ gen₂ : JStr → Except JStr JStr) :
    (handleSummarize now file cards₁ gen₁).1 = (handleSummarize now file cards₂ gen₂).1
    ∧ (handleSummarize now file cards₁ gen₁).1.isCached = some true
    ∧ (handleSummarize now file cards₁ gen₁).1.summary = some c.summary
    ∧ (handleSummarize now file cards₁ gen₁).1.timestamp = some c.timestamp
    ∧ (handleSummarize now file cards₁ gen₁).2 = file := by
  unfold handleSummarize
  rw [h]
  simp

/-- Witness for C3: a fresh record at time 0, two different payloads and
two different generators give the same cached response. -/
theorem c3_cached_response_ignores_input_witness :
    getCachedSummary 0 (some demoRecord) = some demoRecord
    ∧ ((handleSummarize 0 (some demoRecord) [] (fun _ => Except.error [])).1 =
        (handleSummarize 0 (some demoRecord) [demoCard1] (fun p => Except.ok p)).1
      ∧ (handleSummarize 0 (some demoRecord) [] (fun _ => Except.error [])).1.isCached =
          some true
      ∧ (handleSummarize 0 (some demoRecord) [] (fun _ => Except.error [])).1.summary =
          some demoRecord.summary
      ∧ (handleSummarize 0 (some demoRecord) [] (fun _ => Except.error [])).1.timestamp =
          some demoRecord.timestamp
      ∧ (handleSummarize 0 (some demoRecord) [] (fun _ => Except.error [])).2 =
          some demoRecord) :=
  ⟨by decide,
    c3_cached_response_ignores_input 0 (some demoRecord) demoRecord (by decide)
      [] [demoCard1] (fun _ => Except.error []) (fun p => Except.ok p)⟩

/-- Claim C4: on a cache miss with extractable content, when the external
generation call throws, the handler answers with HTTP 500 and the fixed
generic error message, and the cache file state after the request is
exactly the state before it (nothing is written or overwritten). -/
theorem c4_external_failure_no_write (now : Int) (file : Option CacheRecord)
    (cards : List NewsCard) (gen : JStr → Except JStr JStr) (msg : JStr)
    (hmiss : getCachedSummary now file = none)
    (hcontent : extractCleanNewsData cards ≠ [])
    (hthrow : gen (inputPrompt (extractCleanNewsData cards)) = Except.error msg) :
    handleSummarize now file cards gen =
      ({ status := 500, summary := none, timestamp := none, isCached := none,
         error := some errGeneric }, file) := by
  simp [handleSummarize, hmiss, hcontent, hthrow]

/-- Witness for C4: empty cache file, one qualifying card, a generator
that always throws. -/
theorem c4_external_failure_no_write_witness :
    getCachedSummary 0 none = none
    ∧ extractCleanNewsData [demoCard1] ≠ []
    ∧ (fun _ : JStr => (Except.error [] : Except JStr JStr))
        (inputPrompt (extractCleanNewsData [demoCard1])) = Except.error []
    ∧ handleSummarize 0 none [demoCard1] (fun _ => Except.error []) =
        ({ status := 500, summary := none, timestamp := none, isCached := none,
           error := some errGeneric }, none) :=
  ⟨by decide, by decide, rfl,
    c4_external_failure_no_write 0 none [demoCard1] (fun _ => Except.error []) []
      (by decide) (by decide) rfl⟩

/-- Claim C5, counterexample: the key list of the JSON object
`saveCachedSummary` persists is `summary, timestamp, ttl`, which is not
the `summary, timestamp, ttlHours` shape the spec declares, already for
the record stored for the summary `x` at time 0. -/
theorem c5_saveCached_shape_counterexample :
    cacheJSONKeys (saveCachedSummary (jstr "x") 0).1 ≠ specCacheRecordKeys := by
  decide

/-- Claim C5, amended: for every summary string `s`, `saveCachedSummary`
constructs the record with `summary = s`, the current time as timestamp
and TTL fixed at 4 hours, persists it as the new cache file content
(irrespective of any prior record), and returns it — but the persisted
TTL field is named `ttl`, not `ttlHours`. -/
theorem c5_saveCached_amended (s : JStr) (now : Int) :
    (saveCachedSummary s now).1.summary = s
    ∧ (saveCachedSummary s now).1.timestamp = now
    ∧ (saveCachedSummary s now).1.ttl = CACHE_TTL_HOURS
    ∧ (saveCachedSummary s now).2 = some (saveCachedSummary s now).1
    ∧ cacheJSONKeys (saveCachedSummary s now).1 =
        [jstr "summary", jstr "timestamp", jstr "ttl"] :=
  ⟨rfl, rfl, rfl, rfl, rfl⟩

/-- Claim C6: saving a summary and immediately reading the cache back (at
the same instant) yields a hit, and the record read back carries exactly
the saved summary. -/
theorem c6_save_then_get_roundtrip (s : JStr) (now : Int) :
    getCachedSummary now (saveCachedSummary s now).2 = some (saveCachedSummary s now).1
    ∧ (saveCachedSummary s now).1.summary = s := by
  refine ⟨?_, rfl⟩
  have hlt : now < now + (CACHE_TTL_HOURS : Int) * msPerHour := by
    simp only [CACHE_TTL_HOURS, msPerHour]
    omega
  simp [getCachedSummary, saveCachedSummary, hlt]

/-- Claim C7: cards whose trimmed title or trimmed summary is empty are
excluded (the article list only depends on the qualifying cards), and when
no card qualifies the extractor returns the empty string rather than an
error. -/
theorem c7_unqualified_excluded (cards : List NewsCard) :
    extractArticles cards = extractArticles (cards.filter qualifiesCard)
    ∧ (cards.filter qualifiesCard = [] → extractCleanNewsData cards = []) := by
  refine ⟨extractArticles_filter cards, ?_⟩
  intro hnone
  have h0 : extractArticles cards = [] := by
    rw [extractArticles_filter cards, hnone]
    rfl
  unfold extractCleanNewsData
  rw [h0]
  rfl

/-- Witness for C7 on a single card with an empty title: no card
qualifies and the extractor output is the empty string. -/
theorem c7_unqualified_excluded_witness :
    [demoCardEmptyTitle].filter qualifiesCard = []
    ∧ extractCleanNewsData [demoCardEmptyTitle] = [] :=
  ⟨by decide, (c7_unqualified_excluded [demoCardEmptyTitle]).2 (by decide)⟩

/-- Claim C8, evaluation of the defect: for two qualifying cards the
extractor yields two article blocks, yet the number interpolated into the
ANALYZE clause of the prompt — `cleanNewsData.split("\n---").length` — is
1, because the separator lines of the blocks are indented by eight spaces
and the substring `"\n---"` therefore never occurs in the extracted
text. -/
theorem c8_prompt_article_count_bug :
    (extractArticles [demoCard1, demoCard2]).length = 2
    ∧ articleCountInPrompt (extractCleanNewsData [demoCard1, demoCard2]) = 1
    ∧ inputPrompt (extractCleanNewsData [demoCard1, demoCard2]) =
        promptPart1 ++ natChars 1 ++ promptPart2
          ++ extractCleanNewsData [demoCard1, demoCard2] ++ promptPart3 := by
  refine ⟨by decide, ?_, ?_⟩
  · set_option maxRecDepth 40000 in decide
  · unfold inputPrompt
    have h1 : articleCountInPrompt (extractCleanNewsData [demoCard1, demoCard2]) = 1 := by
      set_option maxRecDepth 40000 in decide
    rw [h1]

/-- Claim C9: `getCachedSummary` ignores the `ttl` field the record
itself carries — hit or miss is unchanged under any replacement of that
field, and a record is a hit exactly while the current time is strictly
before its timestamp plus the fixed 4 hours of `CACHE_TTL_HOURS`. -/
theorem c9_record_ttl_ignored (s : JStr) (ts : Int) (t₁ t₂ : Nat) (now : Int) :
    ((getCachedSummary now (some ⟨s, ts, t₁⟩)).isSome ↔
      (getCachedSummary now (some ⟨s, ts, t₂⟩)).isSome)
    ∧ ((getCachedSummary now (some ⟨s, ts, t₁⟩)).isSome ↔
      now < ts + 4 * msPerHour) := by
  have h4 : (CACHE_TTL_HOURS : Int) = 4 := by simp [CACHE_TTL_HOURS]
  by_cases h : now < ts + (4 : Int) * msPerHour
  · simp [getCachedSummary, h4, h]
  · simp [getCachedSummary, h4, h]

/-- Claim C10, counterexample: on one card holding a `p`-tagged summary,
the two textual versions of `extractCleanNewsData` produce different
strings (the second appends the stray text
`" // Truncate summary to save tokens"` to the Summary line, since in the
source it sits inside the template literal). -/
theorem c10_versions_differ_counterexample :
    extractCleanNewsDataFirst [demoCard1] ≠ extractCleanNewsData [demoCard1] := by
  decide

/-- Helper for the amended C10: when every summary-class descendant is a
`p` element, the two article arrays coincide. -/
theorem extractArticlesFirst_eq (cards : List NewsCard)
    (h : ∀ c ∈ cards, ∀ e ∈ c.summaryElems, e.tag = jstr "p") :
    extractArticlesFirst cards = extractArticles cards := by
  induction cards with
  | nil => rfl
  | cons c cs ih =>
    have hps : c.summaryElems.filter (fun e => e.tag = jstr "p") = c.summaryElems := by
      apply List.filter_eq_self.mpr
      intro e he
      simp [h c (List.mem_cons_self c cs) e he]
    have hc : summaryTextP c = summaryTextAll c := by
      unfold summaryTextP summaryTextAll
      rw [hps]
    have hrest : ∀ x ∈ cs, ∀ e ∈ x.summaryElems, e.tag = jstr "p" :=
      fun x hx => h x (List.mem_cons_of_mem c hx)
    simp only [extractArticlesFirst, extractArticles, List.filterMap_cons] at ih ⊢
    rw [hc, ih hrest]

/-- Claim C10, amended: the two definitions select articles identically
whenever every summary-class descendant is a `p` element (the selectors
`p.summary` and `.summary` then agree), and their output strings coincide
whenever no article qualifies (both are empty); they are not equal on
every input, since the second version appends the stray comment text to
each Summary line. -/
theorem c10_versions_amended (cards : List NewsCard)
    (h : ∀ c ∈ cards, ∀ e ∈ c.summaryElems, e.tag = jstr "p") :
    extractArticlesFirst cards = extractArticles cards
    ∧ (extractArticles cards = [] →
        extractCleanNewsDataFirst cards = extractCleanNewsData cards) := by
  refine ⟨extractArticlesFirst_eq cards h, fun he => ?_⟩
  unfold extractCleanNewsDataFirst extractCleanNewsData
  rw [extractArticlesFirst_eq cards h, he]
  rfl

/-- Witness for the amended C10 on a card with an empty title: the
hypothesis holds, no article qualifies, and both outputs are empty. -/
theorem c10_versions_amended_witness :
    (∀ c ∈ [demoCardEmptyTitle], ∀ e ∈ c.summaryElems, e.tag = jstr "p")
    ∧ extractArticlesFirst [demoCardEmptyTitle] = extractArticles [demoCardEmptyTitle]
    ∧ extractArticles [demoCardEmptyTitle] = []
    ∧ extractCleanNewsDataFirst [demoCardEmptyTitle] =
        extractCleanNewsData [demoCardEmptyTitle] :=
  ⟨by decide, (c10_versions_amended [demoCardEmptyTitle] (by decide)).1, by decide,
    (c10_versions_amended [demoCardEmptyTitle] (by decide)).2 (by decide)⟩
